import Mathlib

/-!
Shallow embedding of `src/app.py` of the AI-error-assistant repository:
a single-endpoint FastAPI service that renders a fixed tutoring prompt from
a student's code and error message, posts it to a chat-completion API and
returns the first choice's message content.
-/

namespace AIErrorAssistant

/-- JSON values, the subset needed to model the upstream response body and
the handler's own JSON result. -/
inductive Json where
  | null : Json
  | str : String → Json
  | num : Int → Json
  | arr : List Json → Json
  | obj : List (String × Json) → Json

/-- Lookup of a key in a JSON object's field list (Python `d[k]`, first
binding wins; a parsed JSON object has no duplicate keys). -/
def lookupField : List (String × Json) → String → Option Json
  | [], _ => none
  | (k, v) :: rest, key => if k = key then some v else lookupField rest key

/-- Python `j[k]` on a JSON value: succeeds only on an object holding the
key; any other shape raises, modelled as `none`. -/
def Json.getField : Json → String → Option Json
  | .obj fields, key => lookupField fields key
  | _, _ => none

/-- Python `j[i]` on a JSON value: succeeds only on an array long enough;
any other shape raises, modelled as `none`. -/
def Json.getIndex : Json → Nat → Option Json
  | .arr xs, i => xs[i]?
  | _, _ => none

/-- Module-level state of `app.py`: the one credential read from the
environment at import time (line 9) and never written again. -/
structure ModuleState where
  GROQ_API_KEY : String

/-- Outcome of importing the module (lines 7-13 of `app.py`): either the
`RuntimeError` raised when the credential is absent, or a serving app whose
module state holds the credential. -/
inductive StartupResult where
  | fatal (msg : String) : StartupResult
  | serving (st : ModuleState) : StartupResult

/-- Startup logic of lines 9-11 of `app.py`: read `GROQ_API_KEY` from the
environment; raise `RuntimeError("GROQ_API_KEY is not set")` when absent. -/
def startup (env : String → Option String) : StartupResult :=
  match env "GROQ_API_KEY" with
  | none => .fatal "GROQ_API_KEY is not set"
  | some k => .serving { GROQ_API_KEY := k }

/-- The pydantic model `AnalyzeRequest` of lines 15-17 of `app.py`:
`code : str` and `error : str | None`. -/
structure AnalyzeRequest where
  code : String
  error : Option String
deriving DecidableEq

/-- How one field of the inbound JSON body can stand: missing from the
object, explicitly null, or a JSON string. -/
inductive FieldVal where
  | absent : FieldVal
  | null : FieldVal
  | strVal (s : String) : FieldVal
deriving DecidableEq

/-- Validation semantics of the pydantic model `AnalyzeRequest` (lines
15-17 of `app.py`) under pydantic v2, as used by current FastAPI: a field
annotated `str | None` with no default is required, so it must be present
in the body and may be a string or null; `code : str` must be present and
a string. -/
def parseAnalyzeRequest (codeField errorField : FieldVal) :
    Except String AnalyzeRequest :=
  match codeField with
  | .absent => .error "code: Field required"
  | .null => .error "code: Input should be a valid string"
  | .strVal c =>
    match errorField with
    | .absent => .error "error: Field required"
    | .null => .ok { code := c, error := none }
    | .strVal e => .ok { code := c, error := some e }

/-- Python truthiness substitution `req.code or "[EMPTY CODE]"` on line 25
of `app.py`: a string is falsy exactly when it is empty. -/
def codeInsert (code : String) : String :=
  if code = "" then "[EMPTY CODE]" else code

/-- Python truthiness substitution `req.error or "No error message"` on
line 28 of `app.py`: `None` and the empty string are both falsy. -/
def errorInsert : Option String → String
  | none => "No error message"
  | some e => if e = "" then "No error message" else e

/-- Fixed text of the f-string template before the code insertion
(lines 21-24 of `app.py`, including the newline opening the triple-quoted
string and the trailing space after the first paragraph). -/
def promptHeader : String :=
  "\nYou are a coding tutor/assistant of AI and Data Science bootcamp students. Your role is to support the students in learning Python. For this reason your role is to explain the errors their codes get, why, and to guide them to fix the code and also learn. Importantly, you must not provide the solution code itself, and only guidance. \n\nStudent code:\n"

/-- Fixed text of the template between the code and error insertions
(lines 26-27 of `app.py`). -/
def promptMid : String :=
  "\n\nError message:\n"

/-- Fixed text of the template after the error insertion (lines 29-35 of
`app.py`, ending with the newline before the closing triple quote). -/
def promptTail : String :=
  "\n\nExplain:\n1. What is the issue?\n2. Why did it happen?\n3. How to fix it?\n4. Give a minimal example or a hint.\n"

/-- The rendered prompt of lines 21-35 of `app.py`: the fixed template with
the truthiness-substituted code and error texts inserted. -/
def renderPrompt (req : AnalyzeRequest) : String :=
  promptHeader ++ codeInsert req.code ++ promptMid ++ errorInsert req.error ++ promptTail

/-- One role/content message object of the outbound body (line 45 of
`app.py`). -/
structure Message where
  role : String
  content : String
deriving DecidableEq

/-- The outbound HTTP request issued by `requests.post` on lines 37-47 of
`app.py`: URL, headers and JSON body fields. -/
structure OutboundRequest where
  url : String
  authorization : String
  contentType : String
  model : String
  messages : List Message
deriving DecidableEq

/-- Construction of the outbound request on lines 37-47 of `app.py`. -/
def outboundRequest (apiKey : String) (req : AnalyzeRequest) : OutboundRequest :=
  { url := "https://api.groq.com/openai/v1/chat/completions"
    authorization := "Bearer " ++ apiKey
    contentType := "application/json"
    model := "llama-3.1-8b-instant"
    messages := [{ role := "user", content := renderPrompt req }] }

/-- What the outbound call can come back with: a transport-level failure
(connection error, timeout - `requests.post` raises) or an HTTP response
with a status code and a JSON body. `requests` does NOT raise on a non-2xx
status; the handler never inspects `status`. -/
inductive UpstreamOutcome where
  | transportFailure : UpstreamOutcome
  | httpResponse (status : Nat) (body : Json) : UpstreamOutcome

/-- Extraction `response.json()["choices"][0]["message"]["content"]` on
line 50 of `app.py`; `none` models the KeyError/IndexError/TypeError
raised when the path is missing. -/
def extractContent (body : Json) : Option Json :=
  (body.getField "choices").bind fun cs =>
    (cs.getIndex 0).bind fun c0 =>
      (c0.getField "message").bind fun m =>
        m.getField "content"

/-- Outcome of one handler invocation: an unhandled exception surfacing as
a generic server error, or a success JSON body. -/
inductive HandlerOutcome where
  | serverError : HandlerOutcome
  | success (body : Json) : HandlerOutcome

/-- The `analyze` handler of lines 20-51 of `app.py`, with the upstream
server abstracted as a function from the outbound request to its outcome:
render the prompt, issue the one outbound call, and return
`{"analysis": content}` built from the extracted content, propagating any
exception as a server error. -/
def analyze (st : ModuleState) (req : AnalyzeRequest)
    (upstream : OutboundRequest → UpstreamOutcome) : HandlerOutcome :=
  match upstream (outboundRequest st.GROQ_API_KEY req) with
  | .transportFailure => .serverError
  | .httpResponse _ body =>
    match extractContent body with
    | none => .serverError
    | some c => .success (.obj [("analysis", c)])

/-- One full invocation of the handler as a transition on module state,
also recording the list of outbound calls it issues: `app.py` lines 20-51
are straight-line code that assigns no global, and issue exactly the one
`requests.post` call. -/
def analyzeRun (st : ModuleState) (req : AnalyzeRequest)
    (upstream : OutboundRequest → UpstreamOutcome) :
    ModuleState × HandlerOutcome × List OutboundRequest :=
  (st, analyze st req upstream, [outboundRequest st.GROQ_API_KEY req])

/-- A well-shaped upstream body `{"choices":[{"message":{"content": c}}]}`. -/
def chatBody (c : String) : Json :=
  .obj [("choices", .arr [.obj [("message", .obj [("content", .str c)])]])]

/-- C1: the rendered prompt contains the student code verbatim, with the
literal "[EMPTY CODE]" in its place when the code is empty, and contains
the error text verbatim, with the literal "No error message" in its place
when the error is null. -/
theorem C1_prompt_contains_inputs (req : AnalyzeRequest) :
    (req.code ≠ "" → ∃ p q, renderPrompt req = p ++ req.code ++ q) ∧
    (req.code = "" → ∃ p q, renderPrompt req = p ++ "[EMPTY CODE]" ++ q) ∧
    (∀ e, req.error = some e → ∃ p q, renderPrompt req = p ++ e ++ q) ∧
    (req.error = none → ∃ p q, renderPrompt req = p ++ "No error message" ++ q) := by
  refine ⟨fun h => ?_, fun h => ?_, fun e he => ?_, fun h => ?_⟩
  · exact ⟨promptHeader, promptMid ++ errorInsert req.error ++ promptTail,
      by simp [renderPrompt, codeInsert, h, String.append_assoc]⟩
  · exact ⟨promptHeader, promptMid ++ errorInsert req.error ++ promptTail,
      by simp [renderPrompt, codeInsert, h, String.append_assoc]⟩
  · by_cases he' : e = ""
    · exact ⟨renderPrompt req, "", by simp [he', String.append_empty]⟩
    · exact ⟨promptHeader ++ codeInsert req.code ++ promptMid, promptTail,
        by simp [renderPrompt, errorInsert, he, he', String.append_assoc]⟩
  · exact ⟨promptHeader ++ codeInsert req.code ++ promptMid, promptTail,
      by simp [renderPrompt, errorInsert, h, String.append_assoc]⟩

/-- Witness for C1 at concrete requests. -/
theorem C1_prompt_contains_inputs_witness :
    (∃ p q, renderPrompt { code := "x = 1", error := some "NameError: name y" } =
      p ++ "x = 1" ++ q) ∧
    (∃ p q, renderPrompt { code := "", error := none } = p ++ "[EMPTY CODE]" ++ q) ∧
    (∃ p q, renderPrompt { code := "", error := none } = p ++ "No error message" ++ q) :=
  ⟨(C1_prompt_contains_inputs { code := "x = 1", error := some "NameError: name y" }).1
      (by decide),
   (C1_prompt_contains_inputs { code := "", error := none }).2.1 rfl,
   (C1_prompt_contains_inputs { code := "", error := none }).2.2.2 rfl⟩

/-- C2: when the upstream reply has the shape
`choices[0].message.content = c` with `c` a string, the handler returns
the JSON object binding "analysis" to `c` unchanged. -/
theorem C2_success_passthrough (st : ModuleState) (req : AnalyzeRequest)
    (upstream : OutboundRequest → UpstreamOutcome) (status : Nat) (c : String)
    (h : upstream (outboundRequest st.GROQ_API_KEY req) =
      .httpResponse status (chatBody c)) :
    analyze st req upstream = .success (.obj [("analysis", .str c)]) := by
  simp [analyze, h, extractContent, chatBody, Json.getField, Json.getIndex, lookupField]

/-- Witness for C2 at a concrete state, request and upstream. -/
theorem C2_success_passthrough_witness :
    analyze { GROQ_API_KEY := "gsk_test" } { code := "print(x)", error := none }
      (fun _ => .httpResponse 200 (chatBody "Issue: x is undefined")) =
    .success (.obj [("analysis", .str "Issue: x is undefined")]) :=
  C2_success_passthrough { GROQ_API_KEY := "gsk_test" }
    { code := "print(x)", error := none } _ 200 "Issue: x is undefined" rfl

/-- C3: when the upstream body does not contain the path
`choices[0].message.content`, the handler fails with a server error and in
particular never returns a success result. -/
theorem C3_malformed_upstream_fails (st : ModuleState) (req : AnalyzeRequest)
    (upstream : OutboundRequest → UpstreamOutcome) (status : Nat) (body : Json)
    (hresp : upstream (outboundRequest st.GROQ_API_KEY req) =
      .httpResponse status body)
    (hmiss : extractContent body = none) :
    analyze st req upstream = .serverError ∧
    ∀ b, analyze st req upstream ≠ .success b := by
  have h : analyze st req upstream = .serverError := by
    simp [analyze, hresp, hmiss]
  exact ⟨h, fun b hb => by simp [h] at hb⟩

/-- Witness for C3: a body with no "choices" field at all. -/
theorem C3_malformed_upstream_fails_witness :
    analyze { GROQ_API_KEY := "gsk_test" } { code := "print(x)", error := none }
      (fun _ => .httpResponse 200 (.obj [("error", .str "bad request")])) =
    .serverError :=
  (C3_malformed_upstream_fails { GROQ_API_KEY := "gsk_test" }
    { code := "print(x)", error := none } _ 200 (.obj [("error", .str "bad request")])
    rfl rfl).1

/-- C4 counterexample: the handler never inspects the HTTP status code, so
a non-2xx response whose body still carries the expected path yields a
success result rather than a failure, refuting the claim that every
non-2xx status makes the operation fail. -/
theorem C4_counterexample :
    analyze { GROQ_API_KEY := "gsk_test" } { code := "print(x)", error := none }
      (fun _ => .httpResponse 500 (chatBody "Internal hiccup")) =
    .success (.obj [("analysis", .str "Internal hiccup")]) ∧
    ¬ (200 ≤ 500 ∧ 500 < 300) := by
  constructor
  · simp [analyze, extractContent, chatBody, Json.getField, Json.getIndex, lookupField]
  · decide

/-- C4 amended: a transport-level failure of the outbound call makes the
handler fail with an unhandled server error, a single outbound call is
issued with no retry, and the HTTP status code is never inspected: for a
given body the outcome is the same at every status, so a non-2xx response
fails only when its body lacks the expected path. -/
theorem C4_transport_failure_propagates (st : ModuleState) (req : AnalyzeRequest)
    (upstream : OutboundRequest → UpstreamOutcome)
    (h : upstream (outboundRequest st.GROQ_API_KEY req) = .transportFailure) :
    analyze st req upstream = .serverError ∧
    (analyzeRun st req upstream).2.2.length = 1 ∧
    ∀ s s' body, analyze st req (fun _ => UpstreamOutcome.httpResponse s body) =
      analyze st req (fun _ => UpstreamOutcome.httpResponse s' body) := by
  refine ⟨by simp [analyze, h], rfl, fun s s' body => ?_⟩
  simp [analyze]

/-- Witness for the amended C4 at a concrete failing upstream. -/
theorem C4_transport_failure_propagates_witness :
    analyze { GROQ_API_KEY := "gsk_test" } { code := "print(x)", error := none }
      (fun _ => .transportFailure) = .serverError :=
  (C4_transport_failure_propagates { GROQ_API_KEY := "gsk_test" }
    { code := "print(x)", error := none } (fun _ => .transportFailure) rfl).1

/-- C5 counterexample: a request body that omits the `error` field entirely
is rejected by validation, because `error : str | None` without a default
is a required field under pydantic v2; it is not accepted as null. -/
theorem C5_counterexample :
    parseAnalyzeRequest (.strVal "print(x)") .absent = .error "error: Field required" ∧
    (parseAnalyzeRequest (.strVal "print(x)") FieldVal.absent).isOk = false := by
  exact ⟨rfl, rfl⟩

/-- C5 amended: a body whose `error` field is explicitly null is accepted
and treated as no error message, while a body omitting `error` entirely is
rejected with a field-required validation error. -/
theorem C5_null_accepted_absent_rejected (c : String) :
    parseAnalyzeRequest (.strVal c) .null = .ok { code := c, error := none } ∧
    parseAnalyzeRequest (.strVal c) .absent = .error "error: Field required" := by
  exact ⟨rfl, rfl⟩

/-- C6: when `GROQ_API_KEY` is absent from the environment, startup aborts
with the fatal `RuntimeError` and the service never reaches a serving
state. -/
theorem C6_missing_key_aborts (env : String → Option String)
    (h : env "GROQ_API_KEY" = none) :
    startup env = .fatal "GROQ_API_KEY is not set" ∧
    ∀ st, startup env ≠ StartupResult.serving st := by
  have hs : startup env = .fatal "GROQ_API_KEY is not set" := by
    simp [startup, h]
  exact ⟨hs, fun st hserve => by simp [hs] at hserve⟩

/-- Witness for C6 at the empty environment. -/
theorem C6_missing_key_aborts_witness :
    startup (fun _ => none) = .fatal "GROQ_API_KEY is not set" :=
  (C6_missing_key_aborts (fun _ => none) rfl).1

/-- C7: the outbound body consists of exactly the fixed model identifier
and a single-element message list whose one message carries the rendered
prompt, and the request carries a bearer-token authorization header built
from the startup credential. -/
theorem C7_outbound_request_shape (apiKey : String) (req : AnalyzeRequest) :
    (outboundRequest apiKey req).model = "llama-3.1-8b-instant" ∧
    (outboundRequest apiKey req).messages =
      [{ role := "user", content := renderPrompt req }] ∧
    (outboundRequest apiKey req).messages.length = 1 ∧
    (outboundRequest apiKey req).authorization = "Bearer " ++ apiKey ∧
    (outboundRequest apiKey req).url =
      "https://api.groq.com/openai/v1/chat/completions" := by
  exact ⟨rfl, rfl, rfl, rfl, rfl⟩

/-- C8: every handler invocation leaves the module state, and in particular
the startup credential, unchanged, and issues exactly one outbound call. -/
theorem C8_frame_one_call_no_mutation (st : ModuleState) (req : AnalyzeRequest)
    (upstream : OutboundRequest → UpstreamOutcome) :
    (analyzeRun st req upstream).1 = st ∧
    (analyzeRun st req upstream).1.GROQ_API_KEY = st.GROQ_API_KEY ∧
    (analyzeRun st req upstream).2.2.length = 1 := by
  exact ⟨rfl, rfl, rfl⟩

/-- C9: prompt construction is deterministic: two requests with equal code
and equal error render the identical prompt string, and the message content
of the outbound body agrees regardless of the credential in use. -/
theorem C9_prompt_deterministic (r1 r2 : AnalyzeRequest)
    (hc : r1.code = r2.code) (he : r1.error = r2.error) :
    renderPrompt r1 = renderPrompt r2 ∧
    ∀ k1 k2, (outboundRequest k1 r1).messages.map Message.content =
      (outboundRequest k2 r2).messages.map Message.content := by
  obtain ⟨c1, e1⟩ := r1
  obtain ⟨c2, e2⟩ := r2
  cases hc
  cases he
  exact ⟨rfl, fun k1 k2 => rfl⟩

/-- Witness for C9 at a concrete pair of equal requests. -/
theorem C9_prompt_deterministic_witness :
    renderPrompt { code := "a", error := some "E" } =
      renderPrompt { code := "a", error := some "E" } :=
  (C9_prompt_deterministic { code := "a", error := some "E" }
    { code := "a", error := some "E" } rfl rfl).1

/-- C10: an error that is present but equal to the empty string is not
distinguished from a null error by the truthiness test: the prompt equals
the one rendered for a null error and contains the "No error message"
placeholder in place of an empty insertion. -/
theorem C10_empty_error_placeholder (c : String) :
    renderPrompt { code := c, error := some "" } =
      renderPrompt { code := c, error := none } ∧
    ∃ p q, renderPrompt { code := c, error := some "" } =
      p ++ "No error message" ++ q := by
  constructor
  · simp [renderPrompt, errorInsert]
  · exact ⟨promptHeader ++ codeInsert c ++ promptMid, promptTail,
      by simp [renderPrompt, errorInsert, String.append_assoc]⟩

end AIErrorAssistant
